import Mathlib

/-!
# Drug supply-chain chaincode (`src/chaincode/drugChaincode.go`)

A shallow embedding of the chaincode's five transactions and the properties
its specification states about them.

Modelling conventions.

* The ledger (world state) is a map from keys to `Drug` records.  The Go code
  stores `json.Marshal drug` and reads it back with `json.Unmarshal`; for the
  `Drug` struct (strings, a bool and string slices) encoding cannot fail and
  decoding what was encoded gives the record back, so the map holds the records
  themselves and the two `err != nil` branches after Marshal/Unmarshal are
  unreachable.
* What the chaincode cannot decide itself is read from a `Ctx`: the outcome of
  the identity lookup, whether the ledger read or write reports an error, and
  the clock.
* A Go `error` is its message (`none` is `nil`).  A transaction yields the
  returned error, the world state after it and the event it set, if any.
-/

namespace DrugChaincode

/-- The `Drug` struct, field for field. -/
structure Drug where
  DrugID : String
  Name : String
  Manufacturer : String
  BatchNumber : String
  MfgDate : String
  ExpiryDate : String
  Composition : String
  CurrentOwner : String
  Status : String
  History : List String
  IsRecalled : Bool
  InspectionNotes : List String
deriving DecidableEq

/-- The ledger: the record stored under each key, `none` where `GetState` returns `nil`. -/
abbrev WorldState := String → Option Drug

/-- The ledger with nothing stored. -/
def emptyState : WorldState := fun _ => none

/-- What a transaction gets from its collaborators. -/
structure Ctx where
  /-- Outcome of `ctx.GetClientIdentity().GetMSPID()`: the caller's MSP id, or the error. -/
  mspid : Except String String
  /-- The error `GetState` reports, if the ledger read fails. -/
  readErr : Option String
  /-- The error `PutState` reports, if the ledger write fails. -/
  writeErr : Option String
  /-- The RFC 3339 text of `time.Now()` at the n-th call of `getTimestamp` in the transaction. -/
  clock : Nat → String

/-- What a transaction leaves behind. -/
structure TxResult where
  /-- The returned `error`; `none` is `nil`. -/
  err : Option String
  /-- The world state after the transaction. -/
  state : WorldState
  /-- The event passed to `SetEvent`, as name and payload. -/
  event : Option (String × String)

/-- The documented layout of a history row: `"timestamp|event|from|to|details"`. -/
def historyEntry (timestamp event sender receiver details : String) : String :=
  timestamp ++ "|" ++ event ++ "|" ++ sender ++ "|" ++ receiver ++ "|" ++ details

/-- Go `getClientMSPID`: the MSP id, or the lookup error wrapped. -/
def getClientMSPID (ctx : Ctx) : Except String String :=
  match ctx.mspid with
  | .error e => .error ("failed to get client MSPID: " ++ e)
  | .ok id => .ok id

/-- Go `getTimestamp`, at its n-th call in the transaction. -/
def getTimestamp (ctx : Ctx) (n : Nat) : String := ctx.clock n

/-- The stub's `GetState`. -/
def GetState (ctx : Ctx) (ws : WorldState) (key : String) : Except String (Option Drug) :=
  match ctx.readErr with
  | some e => .error e
  | none => .ok (ws key)

/-- The stub's `PutState`: the returned error and the world state after it. -/
def PutState (ctx : Ctx) (ws : WorldState) (key : String) (value : Drug) :
    Option String × WorldState :=
  match ctx.writeErr with
  | some e => (some e, ws)
  | none => (none, fun k => if k = key then some value else ws k)

/-- Go `drugExists`. -/
def drugExists (ctx : Ctx) (ws : WorldState) (drugID : String) : Except String Bool :=
  match GetState ctx ws drugID with
  | .error e => .error ("failed to read from world state: " ++ e)
  | .ok drugJSON => .ok drugJSON.isSome

/-- Go `RegisterDrug`. -/
def RegisterDrug (ctx : Ctx) (ws : WorldState)
    (drugID name batchNumber mfgDate expiryDate composition : String) : TxResult :=
  match getClientMSPID ctx with
  | .error e => ⟨some e, ws, none⟩
  | .ok clientMSPID =>
    if clientMSPID ≠ "CiplaMSP" then
      ⟨some "only Cipla can register drugs", ws, none⟩
    else
      match drugExists ctx ws drugID with
      | .error e => ⟨some e, ws, none⟩
      | .ok true => ⟨some ("drug " ++ drugID ++ " already exists"), ws, none⟩
      | .ok false =>
        let drug : Drug :=
          { DrugID := drugID
            Name := name
            Manufacturer := "Cipla"
            BatchNumber := batchNumber
            MfgDate := mfgDate
            ExpiryDate := expiryDate
            Composition := composition
            CurrentOwner := "Cipla"
            Status := "InProduction"
            History :=
              [getTimestamp ctx 0 ++ "|Registered|SYSTEM|Cipla|Drug registered in system"]
            IsRecalled := false
            InspectionNotes := [] }
        let put := PutState ctx ws drugID drug
        ⟨put.1, put.2, none⟩

/-- Go `ShipDrug`. -/
def ShipDrug (ctx : Ctx) (ws : WorldState) (drugID receiver : String) : TxResult :=
  match getClientMSPID ctx with
  | .error e => ⟨some e, ws, none⟩
  | .ok clientMSPID =>
    match GetState ctx ws drugID with
    | .error e => ⟨some ("failed to read drug: " ++ e), ws, none⟩
    | .ok none => ⟨some ("drug " ++ drugID ++ " does not exist"), ws, none⟩
    | .ok (some drug0) =>
      if drug0.CurrentOwner ≠ clientMSPID then
        ⟨some "only current owner can ship drug", ws, none⟩
      else
        let drug1 := { drug0 with CurrentOwner := receiver }
        let drug2 := { drug1 with Status := "InTransit" }
        let entry := getTimestamp ctx 0 ++ "|Shipped|" ++ drug2.CurrentOwner ++ "|" ++ receiver
          ++ "|Drug shipment initiated"
        let drug3 := { drug2 with History := drug2.History ++ [entry] }
        let eventPayload :=
          "Drug " ++ drugID ++ " shipped from " ++ clientMSPID ++ " to " ++ receiver
        let put := PutState ctx ws drugID drug3
        ⟨put.1, put.2, some ("Shipment", eventPayload)⟩

/-- Go `ReceiveDrug`. -/
def ReceiveDrug (ctx : Ctx) (ws : WorldState) (drugID : String) : TxResult :=
  match getClientMSPID ctx with
  | .error e => ⟨some e, ws, none⟩
  | .ok clientMSPID =>
    match GetState ctx ws drugID with
    | .error e => ⟨some ("failed to read drug: " ++ e), ws, none⟩
    | .ok none => ⟨some ("drug " ++ drugID ++ " does not exist"), ws, none⟩
    | .ok (some drug0) =>
      if drug0.Status ≠ "InTransit" ∨ drug0.CurrentOwner ≠ clientMSPID then
        ⟨some "drug is not in transit to this organization", ws, none⟩
      else
        let drug1 := { drug0 with Status := "Delivered" }
        let entry := getTimestamp ctx 0 ++ "|Received|" ++ drug1.CurrentOwner ++ "|"
          ++ clientMSPID ++ "|Drug received"
        let drug2 := { drug1 with History := drug1.History ++ [entry] }
        let put := PutState ctx ws drugID drug2
        ⟨put.1, put.2, none⟩

/-- Go `RecallDrug`. -/
def RecallDrug (ctx : Ctx) (ws : WorldState) (drugID reason : String) : TxResult :=
  match getClientMSPID ctx with
  | .error e => ⟨some e, ws, none⟩
  | .ok clientMSPID =>
    if clientMSPID ≠ "CDSCOMSP" then
      ⟨some "only regulators can recall drugs", ws, none⟩
    else
      match GetState ctx ws drugID with
      | .error e => ⟨some ("failed to read drug: " ++ e), ws, none⟩
      | .ok none => ⟨some ("drug " ++ drugID ++ " does not exist"), ws, none⟩
      | .ok (some drug0) =>
        let drug1 := { drug0 with IsRecalled := true }
        let drug2 := { drug1 with Status := "Recalled" }
        let drug3 := { drug2 with
          InspectionNotes := drug2.InspectionNotes ++
            ["Recall on " ++ getTimestamp ctx 0 ++ ": " ++ reason] }
        let entry := getTimestamp ctx 1 ++ "|Recalled|" ++ clientMSPID ++ "|ALL|" ++ reason
        let drug4 := { drug3 with History := drug3.History ++ [entry] }
        let put := PutState ctx ws drugID drug4
        ⟨put.1, put.2, some ("Recall", "Drug " ++ drugID ++ " recalled: " ++ reason)⟩

/-- Go `TrackDrug`: the stored record (what the returned JSON text encodes), or the error. -/
def TrackDrug (ctx : Ctx) (ws : WorldState) (drugID : String) : Except String Drug :=
  match GetState ctx ws drugID with
  | .error e => .error ("failed to read drug: " ++ e)
  | .ok none => .error ("drug " ++ drugID ++ " does not exist")
  | .ok (some drug) => .ok drug

/-! ## Calls and runs -/

/-- A transaction proposal: the chaincode function called, with its arguments. -/
inductive Call where
  | register (drugID name batchNumber mfgDate expiryDate composition : String)
  | ship (drugID receiver : String)
  | receive (drugID : String)
  | recall (drugID reason : String)
  | track (drugID : String)

/-- The transaction a call runs.  `TrackDrug` only reads: it has no `PutState` and no
`SetEvent`, so its world state is the one it was given. -/
def invoke (ctx : Ctx) (ws : WorldState) : Call → TxResult
  | .register drugID name batchNumber mfgDate expiryDate composition =>
    RegisterDrug ctx ws drugID name batchNumber mfgDate expiryDate composition
  | .ship drugID receiver => ShipDrug ctx ws drugID receiver
  | .receive drugID => ReceiveDrug ctx ws drugID
  | .recall drugID reason => RecallDrug ctx ws drugID reason
  | .track drugID =>
    match TrackDrug ctx ws drugID with
    | .error e => ⟨some e, ws, none⟩
    | .ok _ => ⟨none, ws, none⟩

/-- The world state after a sequence of calls, each with its own context, run in order. -/
def runAll (ws : WorldState) : List (Ctx × Call) → WorldState
  | [] => ws
  | (ctx, call) :: rest => runAll (invoke ctx ws call).state rest

/-- Whether a call is `RegisterDrug` on the given id. -/
def Call.registers (drugID : String) : Call → Bool
  | .register k _ _ _ _ _ => k = drugID
  | _ => false

/-- The fields of a history row: the row cut at every `|`. -/
def splitFields (entry : String) : List String :=
  (entry.data.splitOn '|').map String.mk

/-- The text has no `|` in it. -/
def noBar (s : String) : Prop := '|' ∉ s.data

instance (s : String) : Decidable (noBar s) :=
  inferInstanceAs (Decidable ('|' ∉ s.data))

/-- The descriptive fields of two records agree: id, name, manufacturer, batch number,
manufacture date, expiry date and composition. -/
def sameDescription (a b : Drug) : Prop :=
  a.DrugID = b.DrugID ∧ a.Name = b.Name ∧ a.Manufacturer = b.Manufacturer ∧
  a.BatchNumber = b.BatchNumber ∧ a.MfgDate = b.MfgDate ∧ a.ExpiryDate = b.ExpiryDate ∧
  a.Composition = b.Composition

/-- What a transaction on the record `drug` stored at `drugID` may do to its history: the
record is still there, the old history is a prefix of the new one, on success it has grown
by exactly one row, and on failure the world state is the one before the call. -/
def appendsToHistory (ws : WorldState) (drugID : String) (drug : Drug) (r : TxResult) : Prop :=
  ∃ drug' : Drug, r.state drugID = some drug' ∧ drug.History <+: drug'.History ∧
    (r.err = none → ∃ entry, drug'.History = drug.History ++ [entry]) ∧
    (r.err ≠ none → r.state = ws)

/-! ## The records the transactions write -/

/-- The world state with `value` stored under `key`. -/
def put (ws : WorldState) (key : String) (value : Drug) : WorldState :=
  fun k => if k = key then some value else ws k

/-- The record a successful `RegisterDrug` stores. -/
def registeredRecord (timestamp drugID name batchNumber mfgDate expiryDate composition : String) :
    Drug :=
  { DrugID := drugID, Name := name, Manufacturer := "Cipla", BatchNumber := batchNumber,
    MfgDate := mfgDate, ExpiryDate := expiryDate, Composition := composition,
    CurrentOwner := "Cipla", Status := "InProduction",
    History := [historyEntry timestamp "Registered" "SYSTEM" "Cipla" "Drug registered in system"],
    IsRecalled := false, InspectionNotes := [] }

/-- The record a successful `ShipDrug` stores in place of `drug`. -/
def shippedRecord (timestamp receiver : String) (drug : Drug) : Drug :=
  { drug with
    CurrentOwner := receiver, Status := "InTransit",
    History := drug.History ++
      [historyEntry timestamp "Shipped" receiver receiver "Drug shipment initiated"] }

/-- The record a successful `ReceiveDrug` by `clientMSPID` stores in place of `drug`. -/
def receivedRecord (timestamp clientMSPID : String) (drug : Drug) : Drug :=
  { drug with
    Status := "Delivered",
    History := drug.History ++
      [historyEntry timestamp "Received" drug.CurrentOwner clientMSPID "Drug received"] }

/-- The record a successful `RecallDrug` by `clientMSPID` stores in place of `drug`. -/
def recalledRecord (noteTime rowTime clientMSPID reason : String) (drug : Drug) : Drug :=
  { drug with
    IsRecalled := true, Status := "Recalled",
    InspectionNotes := drug.InspectionNotes ++ ["Recall on " ++ noteTime ++ ": " ++ reason],
    History := drug.History ++ [historyEntry rowTime "Recalled" clientMSPID "ALL" reason] }

/-- How a successful transaction replaces what is stored under the key it writes:
`RegisterDrug` fills an empty slot, the other three rewrite the record found there. -/
inductive Rewrite : Option Drug → Drug → Prop
  | registered (timestamp drugID name batchNumber mfgDate expiryDate composition : String) :
    Rewrite none
      (registeredRecord timestamp drugID name batchNumber mfgDate expiryDate composition)
  | shipped (timestamp receiver : String) (drug : Drug) :
    Rewrite (some drug) (shippedRecord timestamp receiver drug)
  | received (timestamp : String) (drug : Drug) :
    drug.Status = "InTransit" →
    Rewrite (some drug) (receivedRecord timestamp drug.CurrentOwner drug)
  | recalled (noteTime rowTime reason : String) (drug : Drug) :
    Rewrite (some drug) (recalledRecord noteTime rowTime "CDSCOMSP" reason drug)

/-! ## Sample inputs -/

/-- A context in which every collaborator works and the caller has the given MSP id. -/
def callerCtx (role : String) : Ctx :=
  { mspid := .ok role, readErr := none, writeErr := none,
    clock := fun _ => "2024-03-05T10:00:00Z" }

/-- The record of drug `D1` with the given owner, status and recall flag. -/
def heldDrug (owner status : String) (recalled : Bool) : Drug :=
  { DrugID := "D1", Name := "Paracetamol", Manufacturer := "Cipla", BatchNumber := "B100",
    MfgDate := "2024-01-01", ExpiryDate := "2026-01-01", Composition := "500mg",
    CurrentOwner := owner, Status := status,
    History := ["2024-01-01T09:00:00Z|Registered|SYSTEM|Cipla|Drug registered in system"],
    IsRecalled := recalled, InspectionNotes := [] }

/-- The ledger holding one record, under its own id. -/
def ledgerWith (drug : Drug) : WorldState :=
  fun k => if k = drug.DrugID then some drug else none

/-- The ledger after `CiplaMSP` has registered drug `D1` on the empty ledger. -/
def registeredLedger : WorldState :=
  (RegisterDrug (callerCtx "CiplaMSP") emptyState "D1" "Paracetamol" "B100" "2024-01-01"
    "2026-01-01" "500mg").state

/-- The run the recall counterexamples use: `CiplaMSP` registers `D1`, `CDSCOMSP` recalls
it, and a caller with MSP id `Cipla`, the stored owner, ships it to `MedlifeMSP`. -/
def recallThenShip : List (Ctx × Call) :=
  [(callerCtx "CiplaMSP",
      .register "D1" "Paracetamol" "B100" "2024-01-01" "2026-01-01" "500mg"),
    (callerCtx "CDSCOMSP", .recall "D1" "contamination"),
    (callerCtx "Cipla", .ship "D1" "MedlifeMSP")]

/-- The record that run leaves at `D1`: registered, then recalled, then shipped. -/
def recalledInTransit : Drug :=
  shippedRecord "2024-03-05T10:00:00Z" "MedlifeMSP"
    (recalledRecord "2024-03-05T10:00:00Z" "2024-03-05T10:00:00Z" "CDSCOMSP" "contamination"
      (registeredRecord "2024-03-05T10:00:00Z" "D1" "Paracetamol" "B100" "2024-01-01"
        "2026-01-01" "500mg"))

/-! ## Receiving -/

/-- C1: when a record is stored at the id, `ReceiveDrug` succeeds if and only if the
record's status is `InTransit` and its current owner is the caller; in every other case it
fails with "drug is not in transit to this organization" and the world state is the one
before the call. -/
theorem receiveDrug_succeeds_iff (ctx : Ctx) (ws : WorldState) (drugID role : String)
    (drug : Drug) (hrole : ctx.mspid = .ok role) (hread : ctx.readErr = none)
    (hwrite : ctx.writeErr = none) (hdrug : ws drugID = some drug) :
    ((ReceiveDrug ctx ws drugID).err = none ↔
        (drug.Status = "InTransit" ∧ drug.CurrentOwner = role)) ∧
    (¬ (drug.Status = "InTransit" ∧ drug.CurrentOwner = role) →
        (ReceiveDrug ctx ws drugID).err = some "drug is not in transit to this organization" ∧
        (ReceiveDrug ctx ws drugID).state = ws) := by
  by_cases h : drug.Status = "InTransit" ∧ drug.CurrentOwner = role
  · obtain ⟨h1, h2⟩ := h
    simp [ReceiveDrug, getClientMSPID, GetState, PutState, hrole, hread, hwrite, hdrug, h1, h2]
  · have h' : drug.Status ≠ "InTransit" ∨ drug.CurrentOwner ≠ role := by
      by_contra hc
      push_neg at hc
      exact h hc
    simp [ReceiveDrug, getClientMSPID, GetState, hrole, hread, hdrug, h', h]

/-- C1 at a concrete input: `MedlifeMSP` receives drug `D1`, in transit to it. -/
theorem receiveDrug_succeeds_iff_witness :
    (callerCtx "MedlifeMSP").mspid = .ok "MedlifeMSP" ∧
    ledgerWith (heldDrug "MedlifeMSP" "InTransit" false) "D1"
      = some (heldDrug "MedlifeMSP" "InTransit" false) ∧
    (((ReceiveDrug (callerCtx "MedlifeMSP")
          (ledgerWith (heldDrug "MedlifeMSP" "InTransit" false)) "D1").err = none ↔
        ((heldDrug "MedlifeMSP" "InTransit" false).Status = "InTransit" ∧
          (heldDrug "MedlifeMSP" "InTransit" false).CurrentOwner = "MedlifeMSP")) ∧
      (¬ ((heldDrug "MedlifeMSP" "InTransit" false).Status = "InTransit" ∧
          (heldDrug "MedlifeMSP" "InTransit" false).CurrentOwner = "MedlifeMSP") →
        (ReceiveDrug (callerCtx "MedlifeMSP")
          (ledgerWith (heldDrug "MedlifeMSP" "InTransit" false)) "D1").err
            = some "drug is not in transit to this organization" ∧
        (ReceiveDrug (callerCtx "MedlifeMSP")
          (ledgerWith (heldDrug "MedlifeMSP" "InTransit" false)) "D1").state
            = ledgerWith (heldDrug "MedlifeMSP" "InTransit" false))) :=
  ⟨rfl, rfl,
    receiveDrug_succeeds_iff (callerCtx "MedlifeMSP")
      (ledgerWith (heldDrug "MedlifeMSP" "InTransit" false)) "D1" "MedlifeMSP"
      (heldDrug "MedlifeMSP" "InTransit" false) rfl rfl rfl rfl⟩

/-! ## Shipping by someone else, shipping after a recall -/

/-- C2: when a record is stored at the id and the caller's MSP id is not the record's
current owner, `ShipDrug` fails with "only current owner can ship drug"; the world state,
and so the record at the id, is the one before the call, and no event is set. -/
theorem shipDrug_not_owner (ctx : Ctx) (ws : WorldState) (drugID receiver role : String)
    (drug : Drug) (hrole : ctx.mspid = .ok role) (hread : ctx.readErr = none)
    (hdrug : ws drugID = some drug) (hother : role ≠ drug.CurrentOwner) :
    (ShipDrug ctx ws drugID receiver).err = some "only current owner can ship drug" ∧
    (ShipDrug ctx ws drugID receiver).state = ws ∧
    (ShipDrug ctx ws drugID receiver).state drugID = some drug ∧
    (ShipDrug ctx ws drugID receiver).event = none := by
  have h : drug.CurrentOwner ≠ role := fun e => hother e.symm
  simp [ShipDrug, getClientMSPID, GetState, hrole, hread, hdrug, h]

/-- C2 at a concrete input: `ApolloMSP` tries to ship drug `D1`, held by `MedlifeMSP`. -/
theorem shipDrug_not_owner_witness :
    "ApolloMSP" ≠ (heldDrug "MedlifeMSP" "Delivered" false).CurrentOwner ∧
    (ShipDrug (callerCtx "ApolloMSP") (ledgerWith (heldDrug "MedlifeMSP" "Delivered" false))
        "D1" "CiplaMSP").err = some "only current owner can ship drug" ∧
    (ShipDrug (callerCtx "ApolloMSP") (ledgerWith (heldDrug "MedlifeMSP" "Delivered" false))
        "D1" "CiplaMSP").state = ledgerWith (heldDrug "MedlifeMSP" "Delivered" false) ∧
    (ShipDrug (callerCtx "ApolloMSP") (ledgerWith (heldDrug "MedlifeMSP" "Delivered" false))
        "D1" "CiplaMSP").state "D1" = some (heldDrug "MedlifeMSP" "Delivered" false) ∧
    (ShipDrug (callerCtx "ApolloMSP") (ledgerWith (heldDrug "MedlifeMSP" "Delivered" false))
        "D1" "CiplaMSP").event = none :=
  ⟨by decide,
    shipDrug_not_owner (callerCtx "ApolloMSP")
      (ledgerWith (heldDrug "MedlifeMSP" "Delivered" false)) "D1" "CiplaMSP" "ApolloMSP"
      (heldDrug "MedlifeMSP" "Delivered" false) rfl rfl rfl (by decide)⟩

/-- C3 fails: drug `D1` is recalled and held by `MedlifeMSP`; `MedlifeMSP` ships it to
`ApolloMSP`, the call succeeds and the stored record is back in transit, owned by
`ApolloMSP`, with the recall flag still set. -/
theorem shipDrug_recalled_counterexample :
    (heldDrug "MedlifeMSP" "Recalled" true).Status = "Recalled" ∧
    ledgerWith (heldDrug "MedlifeMSP" "Recalled" true) "D1"
      = some (heldDrug "MedlifeMSP" "Recalled" true) ∧
    (ShipDrug (callerCtx "MedlifeMSP") (ledgerWith (heldDrug "MedlifeMSP" "Recalled" true))
        "D1" "ApolloMSP").err = none ∧
    (ShipDrug (callerCtx "MedlifeMSP") (ledgerWith (heldDrug "MedlifeMSP" "Recalled" true))
        "D1" "ApolloMSP").state "D1" =
      some { heldDrug "ApolloMSP" "InTransit" true with
        History := (heldDrug "MedlifeMSP" "Recalled" true).History ++
          ["2024-03-05T10:00:00Z|Shipped|ApolloMSP|ApolloMSP|Drug shipment initiated"] } ∧
    (ShipDrug (callerCtx "MedlifeMSP") (ledgerWith (heldDrug "MedlifeMSP" "Recalled" true))
        "D1" "ApolloMSP").state ≠ ledgerWith (heldDrug "MedlifeMSP" "Recalled" true) := by
  refine ⟨rfl, rfl, rfl, by decide, ?_⟩
  intro h
  have h1 := congrFun h "D1"
  revert h1
  decide

/-- C3 as the code has it: the status is not looked at.  For a record with status
`Recalled`, `ShipDrug` fails exactly when the caller is not the record's current owner,
and then the world state is the one before the call; the current owner's call succeeds. -/
theorem shipDrug_recalled (ctx : Ctx) (ws : WorldState) (drugID receiver role : String)
    (drug : Drug) (hrole : ctx.mspid = .ok role) (hread : ctx.readErr = none)
    (hwrite : ctx.writeErr = none) (hdrug : ws drugID = some drug)
    (_hrecalled : drug.Status = "Recalled") :
    ((ShipDrug ctx ws drugID receiver).err ≠ none ↔ role ≠ drug.CurrentOwner) ∧
    (role ≠ drug.CurrentOwner → (ShipDrug ctx ws drugID receiver).state = ws) ∧
    (role = drug.CurrentOwner → (ShipDrug ctx ws drugID receiver).err = none) := by
  by_cases h : drug.CurrentOwner = role
  · simp [ShipDrug, getClientMSPID, GetState, PutState, hrole, hread, hwrite, hdrug, h]
  · have h' : ¬ role = drug.CurrentOwner := fun e => h e.symm
    simp [ShipDrug, getClientMSPID, GetState, hrole, hread, hdrug, h, h']

/-- The amended C3 at a concrete input: `ApolloMSP` tries to ship the recalled drug `D1`,
held by `MedlifeMSP`. -/
theorem shipDrug_recalled_witness :
    (heldDrug "MedlifeMSP" "Recalled" true).Status = "Recalled" ∧
    (((ShipDrug (callerCtx "ApolloMSP") (ledgerWith (heldDrug "MedlifeMSP" "Recalled" true))
          "D1" "CiplaMSP").err ≠ none ↔
        "ApolloMSP" ≠ (heldDrug "MedlifeMSP" "Recalled" true).CurrentOwner) ∧
      ("ApolloMSP" ≠ (heldDrug "MedlifeMSP" "Recalled" true).CurrentOwner →
        (ShipDrug (callerCtx "ApolloMSP") (ledgerWith (heldDrug "MedlifeMSP" "Recalled" true))
          "D1" "CiplaMSP").state = ledgerWith (heldDrug "MedlifeMSP" "Recalled" true)) ∧
      ("ApolloMSP" = (heldDrug "MedlifeMSP" "Recalled" true).CurrentOwner →
        (ShipDrug (callerCtx "ApolloMSP") (ledgerWith (heldDrug "MedlifeMSP" "Recalled" true))
          "D1" "CiplaMSP").err = none)) :=
  ⟨rfl,
    shipDrug_recalled (callerCtx "ApolloMSP")
      (ledgerWith (heldDrug "MedlifeMSP" "Recalled" true)) "D1" "CiplaMSP" "ApolloMSP"
      (heldDrug "MedlifeMSP" "Recalled" true) rfl rfl rfl rfl rfl⟩

/-! ## Recalling without being the regulator -/

/-- C4: a caller whose MSP id is not `CDSCOMSP` cannot recall: `RecallDrug` fails with
"only regulators can recall drugs", the world state is the one before the call (whatever it
holds at the id) and no event is set. -/
theorem recallDrug_not_regulator (ctx : Ctx) (ws : WorldState) (drugID reason role : String)
    (hrole : ctx.mspid = .ok role) (hother : role ≠ "CDSCOMSP") :
    (RecallDrug ctx ws drugID reason).err = some "only regulators can recall drugs" ∧
    (RecallDrug ctx ws drugID reason).state = ws ∧
    (RecallDrug ctx ws drugID reason).event = none := by
  simp [RecallDrug, getClientMSPID, hrole, hother]

/-- C4 at a concrete input: `MedlifeMSP` tries to recall drug `D1`, which it holds. -/
theorem recallDrug_not_regulator_witness :
    "MedlifeMSP" ≠ "CDSCOMSP" ∧
    (RecallDrug (callerCtx "MedlifeMSP") (ledgerWith (heldDrug "MedlifeMSP" "Delivered" false))
        "D1" "contamination").err = some "only regulators can recall drugs" ∧
    (RecallDrug (callerCtx "MedlifeMSP") (ledgerWith (heldDrug "MedlifeMSP" "Delivered" false))
        "D1" "contamination").state = ledgerWith (heldDrug "MedlifeMSP" "Delivered" false) ∧
    (RecallDrug (callerCtx "MedlifeMSP") (ledgerWith (heldDrug "MedlifeMSP" "Delivered" false))
        "D1" "contamination").event = none :=
  ⟨by decide,
    recallDrug_not_regulator (callerCtx "MedlifeMSP")
      (ledgerWith (heldDrug "MedlifeMSP" "Delivered" false)) "D1" "contamination" "MedlifeMSP"
      rfl (by decide)⟩

/-! ## Registering -/

/-- C5: when nothing is stored at the id and the caller's MSP id is `CiplaMSP`,
`RegisterDrug` succeeds and the record stored at the id has the given id, name, batch
number, dates and composition, status `InProduction`, the recall flag off, no inspection
notes, and a history of one row: `Registered`, from `SYSTEM`, to the manufacturer named in
the record (`Cipla`), stamped with the clock's reading `ctx.clock 0`. -/
theorem registerDrug_creates (ctx : Ctx) (ws : WorldState)
    (drugID name batchNumber mfgDate expiryDate composition : String)
    (hrole : ctx.mspid = .ok "CiplaMSP") (hread : ctx.readErr = none)
    (hwrite : ctx.writeErr = none) (hfree : ws drugID = none) :
    (RegisterDrug ctx ws drugID name batchNumber mfgDate expiryDate composition).err = none ∧
    ∃ drug : Drug,
      (RegisterDrug ctx ws drugID name batchNumber mfgDate expiryDate composition).state drugID
        = some drug ∧
      drug.Status = "InProduction" ∧ drug.IsRecalled = false ∧ drug.InspectionNotes = [] ∧
      drug.DrugID = drugID ∧ drug.Name = name ∧ drug.BatchNumber = batchNumber ∧
      drug.MfgDate = mfgDate ∧ drug.ExpiryDate = expiryDate ∧
      drug.Composition = composition ∧ drug.Manufacturer = "Cipla" ∧
      drug.History = [historyEntry (ctx.clock 0) "Registered" "SYSTEM"
        drug.Manufacturer "Drug registered in system"] := by
  simp [RegisterDrug, getClientMSPID, getTimestamp, drugExists, GetState, PutState, hrole,
    hread, hwrite, hfree, historyEntry, String.append_assoc]

/-- C5 at a concrete input: `CiplaMSP` registers drug `D1` on the empty ledger. -/
theorem registerDrug_creates_witness :
    (callerCtx "CiplaMSP").mspid = .ok "CiplaMSP" ∧ emptyState "D1" = none ∧
    (RegisterDrug (callerCtx "CiplaMSP") emptyState "D1" "Paracetamol" "B100" "2024-01-01"
        "2026-01-01" "500mg").err = none ∧
    ∃ drug : Drug,
      (RegisterDrug (callerCtx "CiplaMSP") emptyState "D1" "Paracetamol" "B100" "2024-01-01"
        "2026-01-01" "500mg").state "D1" = some drug ∧
      drug.Status = "InProduction" ∧ drug.IsRecalled = false ∧ drug.InspectionNotes = [] ∧
      drug.DrugID = "D1" ∧ drug.Name = "Paracetamol" ∧ drug.BatchNumber = "B100" ∧
      drug.MfgDate = "2024-01-01" ∧ drug.ExpiryDate = "2026-01-01" ∧
      drug.Composition = "500mg" ∧ drug.Manufacturer = "Cipla" ∧
      drug.History = [historyEntry ((callerCtx "CiplaMSP").clock 0) "Registered"
        "SYSTEM" drug.Manufacturer "Drug registered in system"] :=
  ⟨rfl, rfl,
    registerDrug_creates (callerCtx "CiplaMSP") emptyState "D1" "Paracetamol" "B100"
      "2024-01-01" "2026-01-01" "500mg" rfl rfl rfl rfl⟩

/-- C6 fails on the code: `CiplaMSP` registers drug `D1` on the empty ledger and the call
succeeds, but the stored owner is `Cipla`, not the `CiplaMSP` the caller had to be; when
the same caller then ships `D1`, `ShipDrug` refuses with "only current owner can ship
drug" and the ledger stays as registration left it. -/
theorem registerDrug_owner_differs_from_caller :
    (RegisterDrug (callerCtx "CiplaMSP") emptyState "D1" "Paracetamol" "B100" "2024-01-01"
        "2026-01-01" "500mg").err = none ∧
    (registeredLedger "D1").map Drug.CurrentOwner = some "Cipla" ∧
    (registeredLedger "D1").map Drug.CurrentOwner ≠ some "CiplaMSP" ∧
    (ShipDrug (callerCtx "CiplaMSP") registeredLedger "D1" "MedlifeMSP").err
      = some "only current owner can ship drug" ∧
    (ShipDrug (callerCtx "CiplaMSP") registeredLedger "D1" "MedlifeMSP").state
      = registeredLedger := by
  refine ⟨rfl, rfl, by decide, rfl, rfl⟩

/-- C7: when a record is already stored at the id, a `CiplaMSP` caller's `RegisterDrug`
fails with "drug <id> already exists" and the world state is the one before the call.  So
from a ledger with nothing at the id, a first `RegisterDrug` succeeds, a second one on the
same id fails with that error, and the ledger after it is the one the first call left. -/
theorem registerDrug_already_exists (ctx ctx' : Ctx) (ws ws' : WorldState)
    (drugID name batchNumber mfgDate expiryDate composition : String)
    (name' batchNumber' mfgDate' expiryDate' composition' : String) (drug' : Drug)
    (hrole : ctx.mspid = .ok "CiplaMSP") (hread : ctx.readErr = none)
    (hwrite : ctx.writeErr = none) (hfree : ws drugID = none)
    (hrole' : ctx'.mspid = .ok "CiplaMSP") (hread' : ctx'.readErr = none)
    (hdrug' : ws' drugID = some drug') :
    ((RegisterDrug ctx' ws' drugID name' batchNumber' mfgDate' expiryDate' composition').err
        = some ("drug " ++ drugID ++ " already exists") ∧
      (RegisterDrug ctx' ws' drugID name' batchNumber' mfgDate' expiryDate' composition').state
        = ws') ∧
    ((RegisterDrug ctx ws drugID name batchNumber mfgDate expiryDate composition).err = none ∧
      (RegisterDrug ctx'
          (RegisterDrug ctx ws drugID name batchNumber mfgDate expiryDate composition).state
          drugID name' batchNumber' mfgDate' expiryDate' composition').err
        = some ("drug " ++ drugID ++ " already exists") ∧
      (RegisterDrug ctx'
          (RegisterDrug ctx ws drugID name batchNumber mfgDate expiryDate composition).state
          drugID name' batchNumber' mfgDate' expiryDate' composition').state
        = (RegisterDrug ctx ws drugID name batchNumber mfgDate expiryDate composition).state) := by
  refine ⟨?_, ?_⟩
  · simp [RegisterDrug, getClientMSPID, drugExists, GetState, hrole', hread', hdrug']
  · simp [RegisterDrug, getClientMSPID, drugExists, GetState, PutState, hrole, hread, hwrite,
      hfree, hrole', hread']

/-- C7 at a concrete input: `CiplaMSP` registers drug `D1` on the empty ledger, then again
with another name; and registers `D1` on a ledger that holds it. -/
theorem registerDrug_already_exists_witness :
    emptyState "D1" = none ∧
    ledgerWith (heldDrug "MedlifeMSP" "Delivered" false) "D1"
      = some (heldDrug "MedlifeMSP" "Delivered" false) ∧
    (RegisterDrug (callerCtx "CiplaMSP") (ledgerWith (heldDrug "MedlifeMSP" "Delivered" false))
        "D1" "Ibuprofen" "B200" "2024-02-02" "2026-02-02" "200mg").err
      = some "drug D1 already exists" ∧
    (RegisterDrug (callerCtx "CiplaMSP") emptyState "D1" "Paracetamol" "B100" "2024-01-01"
        "2026-01-01" "500mg").err = none ∧
    (RegisterDrug (callerCtx "CiplaMSP") registeredLedger "D1" "Ibuprofen" "B200"
        "2024-02-02" "2026-02-02" "200mg").err = some "drug D1 already exists" ∧
    (RegisterDrug (callerCtx "CiplaMSP") registeredLedger "D1" "Ibuprofen" "B200"
        "2024-02-02" "2026-02-02" "200mg").state = registeredLedger :=
  have h := registerDrug_already_exists (callerCtx "CiplaMSP") (callerCtx "CiplaMSP")
    emptyState (ledgerWith (heldDrug "MedlifeMSP" "Delivered" false)) "D1" "Paracetamol"
    "B100" "2024-01-01" "2026-01-01" "500mg" "Ibuprofen" "B200" "2024-02-02" "2026-02-02"
    "200mg" (heldDrug "MedlifeMSP" "Delivered" false) rfl rfl rfl rfl rfl rfl rfl
  ⟨rfl, rfl, h.1.1, h.2.1, h.2.2.1, h.2.2.2⟩

/-- C8: a caller whose MSP id is not `CiplaMSP` cannot register: for any arguments
`RegisterDrug` fails with "only Cipla can register drugs" and the world state is the one
before the call (whatever it holds at the id). -/
theorem registerDrug_not_manufacturer (ctx : Ctx) (ws : WorldState)
    (drugID name batchNumber mfgDate expiryDate composition role : String)
    (hrole : ctx.mspid = .ok role) (hother : role ≠ "CiplaMSP") :
    (RegisterDrug ctx ws drugID name batchNumber mfgDate expiryDate composition).err
      = some "only Cipla can register drugs" ∧
    (RegisterDrug ctx ws drugID name batchNumber mfgDate expiryDate composition).state = ws := by
  simp [RegisterDrug, getClientMSPID, hrole, hother]

/-- C8 at a concrete input: `MedlifeMSP` tries to register drug `D1` on the empty ledger. -/
theorem registerDrug_not_manufacturer_witness :
    "MedlifeMSP" ≠ "CiplaMSP" ∧
    (RegisterDrug (callerCtx "MedlifeMSP") emptyState "D1" "Paracetamol" "B100" "2024-01-01"
        "2026-01-01" "500mg").err = some "only Cipla can register drugs" ∧
    (RegisterDrug (callerCtx "MedlifeMSP") emptyState "D1" "Paracetamol" "B100" "2024-01-01"
        "2026-01-01" "500mg").state = emptyState :=
  ⟨by decide,
    registerDrug_not_manufacturer (callerCtx "MedlifeMSP") emptyState "D1" "Paracetamol"
      "B100" "2024-01-01" "2026-01-01" "500mg" "MedlifeMSP" rfl (by decide)⟩

/-! ## Shipping by the owner -/

/-- C9: when a record is stored at the id and the caller's MSP id is its current owner,
`ShipDrug` succeeds whatever the record's status (so from `InProduction`, `InTransit` and
`Delivered`), and in the stored record the current owner is the destination, the status is
`InTransit` and the history is one row longer than before. -/
theorem shipDrug_by_owner (ctx : Ctx) (ws : WorldState) (drugID receiver role : String)
    (drug : Drug) (hrole : ctx.mspid = .ok role) (hread : ctx.readErr = none)
    (hwrite : ctx.writeErr = none) (hdrug : ws drugID = some drug)
    (howner : drug.CurrentOwner = role) :
    (ShipDrug ctx ws drugID receiver).err = none ∧
    ∃ drug' : Drug, (ShipDrug ctx ws drugID receiver).state drugID = some drug' ∧
      drug'.CurrentOwner = receiver ∧ drug'.Status = "InTransit" ∧
      drug'.History.length = drug.History.length + 1 := by
  simp [ShipDrug, getClientMSPID, GetState, PutState, hrole, hread, hwrite, hdrug, howner]

/-- C9 at a concrete input: `MedlifeMSP` ships the delivered drug `D1` on to `ApolloMSP`. -/
theorem shipDrug_by_owner_witness :
    (heldDrug "MedlifeMSP" "Delivered" false).CurrentOwner = "MedlifeMSP" ∧
    (ShipDrug (callerCtx "MedlifeMSP") (ledgerWith (heldDrug "MedlifeMSP" "Delivered" false))
        "D1" "ApolloMSP").err = none ∧
    ∃ drug' : Drug,
      (ShipDrug (callerCtx "MedlifeMSP") (ledgerWith (heldDrug "MedlifeMSP" "Delivered" false))
        "D1" "ApolloMSP").state "D1" = some drug' ∧
      drug'.CurrentOwner = "ApolloMSP" ∧ drug'.Status = "InTransit" ∧
      drug'.History.length = (heldDrug "MedlifeMSP" "Delivered" false).History.length + 1 :=
  ⟨rfl,
    shipDrug_by_owner (callerCtx "MedlifeMSP")
      (ledgerWith (heldDrug "MedlifeMSP" "Delivered" false)) "D1" "ApolloMSP" "MedlifeMSP"
      (heldDrug "MedlifeMSP" "Delivered" false) rfl rfl rfl rfl rfl⟩

/-- C10 fails on the code: `MedlifeMSP` holds drug `D1` and ships it to `ApolloMSP`; the
call succeeds and appends one row, whose event is `Shipped` and whose "to" is `ApolloMSP`,
but whose "from" is `ApolloMSP` too, not the previous owner `MedlifeMSP`, because the row is
formatted after the owner has been overwritten.  The event set in the same call does name
the caller as the sender. -/
theorem shipDrug_history_from_is_destination :
    (heldDrug "MedlifeMSP" "Delivered" false).CurrentOwner = "MedlifeMSP" ∧
    (ShipDrug (callerCtx "MedlifeMSP") (ledgerWith (heldDrug "MedlifeMSP" "Delivered" false))
        "D1" "ApolloMSP").err = none ∧
    ((ShipDrug (callerCtx "MedlifeMSP") (ledgerWith (heldDrug "MedlifeMSP" "Delivered" false))
        "D1" "ApolloMSP").state "D1").map Drug.History =
      some ((heldDrug "MedlifeMSP" "Delivered" false).History ++
        [historyEntry "2024-03-05T10:00:00Z" "Shipped" "ApolloMSP" "ApolloMSP"
          "Drug shipment initiated"]) ∧
    ((ShipDrug (callerCtx "MedlifeMSP") (ledgerWith (heldDrug "MedlifeMSP" "Delivered" false))
        "D1" "ApolloMSP").state "D1").map Drug.History ≠
      some ((heldDrug "MedlifeMSP" "Delivered" false).History ++
        [historyEntry "2024-03-05T10:00:00Z" "Shipped" "MedlifeMSP" "ApolloMSP"
          "Drug shipment initiated"]) ∧
    (ShipDrug (callerCtx "MedlifeMSP") (ledgerWith (heldDrug "MedlifeMSP" "Delivered" false))
        "D1" "ApolloMSP").event
      = some ("Shipment", "Drug D1 shipped from MedlifeMSP to ApolloMSP") := by
  refine ⟨rfl, rfl, by decide, by decide, rfl⟩

/-! ## What each transaction does, case by case -/

/-- `RegisterDrug` either fails and leaves the world state alone, or finds the id free, is
called by `CiplaMSP` and stores the registered record. -/
theorem registerDrug_cases (ctx : Ctx) (ws : WorldState)
    (drugID name batchNumber mfgDate expiryDate composition : String) :
    ((RegisterDrug ctx ws drugID name batchNumber mfgDate expiryDate composition).err ≠ none ∧
      (RegisterDrug ctx ws drugID name batchNumber mfgDate expiryDate composition).state = ws) ∨
    (ws drugID = none ∧ ctx.mspid = .ok "CiplaMSP" ∧
      (RegisterDrug ctx ws drugID name batchNumber mfgDate expiryDate composition).err = none ∧
      (RegisterDrug ctx ws drugID name batchNumber mfgDate expiryDate composition).state =
        put ws drugID (registeredRecord (getTimestamp ctx 0) drugID name batchNumber mfgDate
          expiryDate composition)) := by
  rcases hm : ctx.mspid with e | role
  · simp [RegisterDrug, getClientMSPID, hm]
  by_cases hrole : role = "CiplaMSP"
  swap
  · simp [RegisterDrug, getClientMSPID, hm, hrole]
  subst hrole
  rcases hr : ctx.readErr with _ | e
  swap
  · simp [RegisterDrug, getClientMSPID, drugExists, GetState, hm, hr]
  rcases hd : ws drugID with _ | drug
  swap
  · simp [RegisterDrug, getClientMSPID, drugExists, GetState, hm, hr, hd]
  rcases hw : ctx.writeErr with _ | e
  swap
  · simp [RegisterDrug, getClientMSPID, drugExists, GetState, PutState, hm, hr, hd, hw]
  right
  simp [RegisterDrug, getClientMSPID, drugExists, GetState, PutState, hm, hr, hd, hw,
    registeredRecord, historyEntry, String.append_assoc]
  rfl

/-- `ShipDrug` either fails and leaves the world state alone, or finds a record whose
owner is the caller and stores the shipped record in its place. -/
theorem shipDrug_cases (ctx : Ctx) (ws : WorldState) (drugID receiver : String) :
    ((ShipDrug ctx ws drugID receiver).err ≠ none ∧
      (ShipDrug ctx ws drugID receiver).state = ws) ∨
    (∃ drug : Drug, ws drugID = some drug ∧ ctx.mspid = .ok drug.CurrentOwner ∧
      (ShipDrug ctx ws drugID receiver).err = none ∧
      (ShipDrug ctx ws drugID receiver).state =
        put ws drugID (shippedRecord (getTimestamp ctx 0) receiver drug)) := by
  rcases hm : ctx.mspid with e | role
  · simp [ShipDrug, getClientMSPID, hm]
  rcases hr : ctx.readErr with _ | e
  swap
  · simp [ShipDrug, getClientMSPID, GetState, hm, hr]
  rcases hd : ws drugID with _ | drug
  · simp [ShipDrug, getClientMSPID, GetState, hm, hr, hd]
  by_cases ho : drug.CurrentOwner = role
  swap
  · simp [ShipDrug, getClientMSPID, GetState, hm, hr, hd, ho]
  rcases hw : ctx.writeErr with _ | e
  swap
  · simp [ShipDrug, getClientMSPID, GetState, PutState, hm, hr, hd, ho, hw]
  right
  simp [ShipDrug, getClientMSPID, GetState, PutState, hm, hr, hd, ho, hw,
    shippedRecord, historyEntry, String.append_assoc]
  rfl

/-- `ReceiveDrug` either fails and leaves the world state alone, or finds a record in
transit to the caller and stores the received record in its place. -/
theorem receiveDrug_cases (ctx : Ctx) (ws : WorldState) (drugID : String) :
    ((ReceiveDrug ctx ws drugID).err ≠ none ∧ (ReceiveDrug ctx ws drugID).state = ws) ∨
    (∃ drug : Drug, ws drugID = some drug ∧ ctx.mspid = .ok drug.CurrentOwner ∧
      drug.Status = "InTransit" ∧ (ReceiveDrug ctx ws drugID).err = none ∧
      (ReceiveDrug ctx ws drugID).state =
        put ws drugID (receivedRecord (getTimestamp ctx 0) drug.CurrentOwner drug)) := by
  rcases hm : ctx.mspid with e | role
  · simp [ReceiveDrug, getClientMSPID, hm]
  rcases hr : ctx.readErr with _ | e
  swap
  · simp [ReceiveDrug, getClientMSPID, GetState, hm, hr]
  rcases hd : ws drugID with _ | drug
  · simp [ReceiveDrug, getClientMSPID, GetState, hm, hr, hd]
  by_cases hs : drug.Status = "InTransit"
  swap
  · simp [ReceiveDrug, getClientMSPID, GetState, hm, hr, hd, hs]
  by_cases ho : drug.CurrentOwner = role
  swap
  · simp [ReceiveDrug, getClientMSPID, GetState, hm, hr, hd, ho]
  rcases hw : ctx.writeErr with _ | e
  swap
  · simp [ReceiveDrug, getClientMSPID, GetState, PutState, hm, hr, hd, hs, ho, hw]
  right
  simp [ReceiveDrug, getClientMSPID, GetState, PutState, hm, hr, hd, hs, ho, hw,
    receivedRecord, historyEntry, String.append_assoc]
  rfl

/-- `RecallDrug` either fails and leaves the world state alone, or is called by
`CDSCOMSP`, finds a record and stores the recalled record in its place. -/
theorem recallDrug_cases (ctx : Ctx) (ws : WorldState) (drugID reason : String) :
    ((RecallDrug ctx ws drugID reason).err ≠ none ∧
      (RecallDrug ctx ws drugID reason).state = ws) ∨
    (∃ drug : Drug, ws drugID = some drug ∧ ctx.mspid = .ok "CDSCOMSP" ∧
      (RecallDrug ctx ws drugID reason).err = none ∧
      (RecallDrug ctx ws drugID reason).state =
        put ws drugID
          (recalledRecord (getTimestamp ctx 0) (getTimestamp ctx 1) "CDSCOMSP" reason drug)) := by
  rcases hm : ctx.mspid with e | role
  · simp [RecallDrug, getClientMSPID, hm]
  by_cases hrole : role = "CDSCOMSP"
  swap
  · simp [RecallDrug, getClientMSPID, hm, hrole]
  subst hrole
  rcases hr : ctx.readErr with _ | e
  swap
  · simp [RecallDrug, getClientMSPID, GetState, hm, hr]
  rcases hd : ws drugID with _ | drug
  · simp [RecallDrug, getClientMSPID, GetState, hm, hr, hd]
  rcases hw : ctx.writeErr with _ | e
  swap
  · simp [RecallDrug, getClientMSPID, GetState, PutState, hm, hr, hd, hw]
  right
  simp [RecallDrug, getClientMSPID, GetState, PutState, hm, hr, hd, hw,
    recalledRecord, historyEntry, String.append_assoc]
  rfl

/-- What is stored under a key after `put`. -/
theorem put_apply (ws : WorldState) (key k : String) (value : Drug) :
    put ws key value k = if k = key then some value else ws k := rfl

/-- A call that is not `RegisterDrug` on the id leaves an empty slot at the id empty. -/
theorem invoke_absent (ctx : Ctx) (ws : WorldState) (call : Call) (drugID : String)
    (hfree : ws drugID = none) (hcall : call.registers drugID = false) :
    (invoke ctx ws call).state drugID = none := by
  rcases call with ⟨k, name, batchNumber, mfgDate, expiryDate, composition⟩ | ⟨k, receiver⟩ |
    ⟨k⟩ | ⟨k, reason⟩ | ⟨k⟩
  · have hk : ¬ drugID = k := by
      intro e
      simp [Call.registers, e] at hcall
    rcases registerDrug_cases ctx ws k name batchNumber mfgDate expiryDate composition with
      h | h
    · simp [invoke, h.2, hfree]
    · simp [invoke, h.2.2.2, put_apply, hk, hfree]
  · rcases shipDrug_cases ctx ws k receiver with h | ⟨drug, hd, -, -, hs⟩
    · simp [invoke, h.2, hfree]
    · have hk : ¬ drugID = k := by
        intro e
        rw [e, hd] at hfree
        cases hfree
      simp [invoke, hs, put_apply, hk, hfree]
  · rcases receiveDrug_cases ctx ws k with h | ⟨drug, hd, -, -, -, hs⟩
    · simp [invoke, h.2, hfree]
    · have hk : ¬ drugID = k := by
        intro e
        rw [e, hd] at hfree
        cases hfree
      simp [invoke, hs, put_apply, hk, hfree]
  · rcases recallDrug_cases ctx ws k reason with h | ⟨drug, hd, -, -, hs⟩
    · simp [invoke, h.2, hfree]
    · have hk : ¬ drugID = k := by
        intro e
        rw [e, hd] at hfree
        cases hfree
      simp [invoke, hs, put_apply, hk, hfree]
  · cases h : TrackDrug ctx ws k <;> simp [invoke, h, hfree]

/-- An id that no call of a run registers is empty after the run, if it was before. -/
theorem runAll_absent (drugID : String) (trace : List (Ctx × Call)) :
    ∀ ws : WorldState, ws drugID = none →
      (∀ step ∈ trace, step.2.registers drugID = false) →
      runAll ws trace drugID = none := by
  induction trace with
  | nil => intro ws hfree _; exact hfree
  | cons step rest ih =>
    intro ws hfree hcalls
    obtain ⟨ctx, call⟩ := step
    have hhead : call.registers drugID = false := hcalls (ctx, call) (by simp)
    exact ih _ (invoke_absent ctx ws call drugID hfree hhead)
      (fun st hst => hcalls st (by simp [hst]))

/-! ## Receiving and recalling: the record written -/

/-- C11: when `ReceiveDrug` by a caller succeeds on the record stored at the id, the
stored record has status `Delivered`, the current owner it had before, and as history the
previous history followed by one row: `Received`, from the record's current owner, to the
caller, stamped with the clock's reading `ctx.clock 0`. -/
theorem receiveDrug_effect (ctx : Ctx) (ws : WorldState) (drugID role : String) (drug : Drug)
    (hrole : ctx.mspid = .ok role) (hdrug : ws drugID = some drug)
    (hok : (ReceiveDrug ctx ws drugID).err = none) :
    ∃ drug' : Drug, (ReceiveDrug ctx ws drugID).state drugID = some drug' ∧
      drug'.Status = "Delivered" ∧ drug'.CurrentOwner = drug.CurrentOwner ∧
      drug'.History = drug.History ++
        [historyEntry (ctx.clock 0) "Received" drug.CurrentOwner role "Drug received"] := by
  rcases receiveDrug_cases ctx ws drugID with h | ⟨d, hd, hm, -, -, hs⟩
  · exact absurd hok h.1
  · rw [hdrug] at hd
    cases hd
    rw [hrole] at hm
    cases hm
    exact ⟨receivedRecord (getTimestamp ctx 0) drug.CurrentOwner drug,
      by rw [hs, put_apply, if_pos rfl], rfl, rfl, rfl⟩

/-- C11 at a concrete input: `MedlifeMSP` receives drug `D1`, in transit to it. -/
theorem receiveDrug_effect_witness :
    (ReceiveDrug (callerCtx "MedlifeMSP") (ledgerWith (heldDrug "MedlifeMSP" "InTransit" false))
        "D1").err = none ∧
    ∃ drug' : Drug,
      (ReceiveDrug (callerCtx "MedlifeMSP")
        (ledgerWith (heldDrug "MedlifeMSP" "InTransit" false)) "D1").state "D1" = some drug' ∧
      drug'.Status = "Delivered" ∧
      drug'.CurrentOwner = (heldDrug "MedlifeMSP" "InTransit" false).CurrentOwner ∧
      drug'.History = (heldDrug "MedlifeMSP" "InTransit" false).History ++
        [historyEntry ((callerCtx "MedlifeMSP").clock 0) "Received"
          (heldDrug "MedlifeMSP" "InTransit" false).CurrentOwner "MedlifeMSP" "Drug received"] :=
  ⟨rfl,
    receiveDrug_effect (callerCtx "MedlifeMSP")
      (ledgerWith (heldDrug "MedlifeMSP" "InTransit" false)) "D1" "MedlifeMSP"
      (heldDrug "MedlifeMSP" "InTransit" false) rfl rfl rfl⟩

/-- C12: when a record is stored at the id, whatever its status, and the caller's MSP id
is `CDSCOMSP`, `RecallDrug` succeeds and the stored record has the recall flag on and
status `Recalled`; its inspection notes are the previous ones followed by the one note
"Recall on <time>: <reason>", and its history is the previous history followed by one
row: `Recalled`, from `CDSCOMSP`, to `ALL`, with the reason as details. -/
theorem recallDrug_effect (ctx : Ctx) (ws : WorldState) (drugID reason : String) (drug : Drug)
    (hrole : ctx.mspid = .ok "CDSCOMSP") (hread : ctx.readErr = none)
    (hwrite : ctx.writeErr = none) (hdrug : ws drugID = some drug) :
    (RecallDrug ctx ws drugID reason).err = none ∧
    ∃ drug' : Drug, (RecallDrug ctx ws drugID reason).state drugID = some drug' ∧
      drug'.IsRecalled = true ∧ drug'.Status = "Recalled" ∧
      drug'.InspectionNotes = drug.InspectionNotes ++
        ["Recall on " ++ getTimestamp ctx 0 ++ ": " ++ reason] ∧
      drug'.History = drug.History ++
        [historyEntry (getTimestamp ctx 1) "Recalled" "CDSCOMSP" "ALL" reason] := by
  simp [RecallDrug, getClientMSPID, GetState, PutState, hrole, hread, hwrite, hdrug,
    historyEntry, String.append_assoc]

/-- C12 at a concrete input: `CDSCOMSP` recalls drug `D1`, which is recalled already. -/
theorem recallDrug_effect_witness :
    (heldDrug "MedlifeMSP" "Recalled" true).IsRecalled = true ∧
    (RecallDrug (callerCtx "CDSCOMSP") (ledgerWith (heldDrug "MedlifeMSP" "Recalled" true))
        "D1" "contamination").err = none ∧
    ∃ drug' : Drug,
      (RecallDrug (callerCtx "CDSCOMSP") (ledgerWith (heldDrug "MedlifeMSP" "Recalled" true))
        "D1" "contamination").state "D1" = some drug' ∧
      drug'.IsRecalled = true ∧ drug'.Status = "Recalled" ∧
      drug'.InspectionNotes = (heldDrug "MedlifeMSP" "Recalled" true).InspectionNotes ++
        ["Recall on " ++ getTimestamp (callerCtx "CDSCOMSP") 0 ++ ": " ++ "contamination"] ∧
      drug'.History = (heldDrug "MedlifeMSP" "Recalled" true).History ++
        [historyEntry (getTimestamp (callerCtx "CDSCOMSP") 1) "Recalled" "CDSCOMSP" "ALL"
          "contamination"] :=
  ⟨rfl,
    recallDrug_effect (callerCtx "CDSCOMSP")
      (ledgerWith (heldDrug "MedlifeMSP" "Recalled" true)) "D1" "contamination"
      (heldDrug "MedlifeMSP" "Recalled" true) rfl rfl rfl rfl⟩

/-! ## Tracking, and calls on an id with no record -/

/-- C13: `TrackDrug` only reads, and asks nothing about the caller: whatever the identity
lookup gives, the call leaves the world state as it was and sets no event; with nothing
stored at the id it fails with "drug <id> does not exist", so in particular for an id that
no call of a run from the empty ledger registered; and with a record stored at the id it
returns that record, history and inspection notes included. -/
theorem trackDrug_reads (ctx : Ctx) (ws : WorldState) (drugID : String)
    (hread : ctx.readErr = none) :
    (invoke ctx ws (.track drugID)).state = ws ∧
    (invoke ctx ws (.track drugID)).event = none ∧
    (ws drugID = none →
      TrackDrug ctx ws drugID = .error ("drug " ++ drugID ++ " does not exist") ∧
      (invoke ctx ws (.track drugID)).err = some ("drug " ++ drugID ++ " does not exist")) ∧
    (∀ trace : List (Ctx × Call), (∀ step ∈ trace, step.2.registers drugID = false) →
      TrackDrug ctx (runAll emptyState trace) drugID
        = .error ("drug " ++ drugID ++ " does not exist")) ∧
    (∀ drug : Drug, ws drugID = some drug →
      TrackDrug ctx ws drugID = .ok drug ∧ (invoke ctx ws (.track drugID)).err = none) := by
  refine ⟨?_, ?_, ?_, ?_, ?_⟩
  · cases h : TrackDrug ctx ws drugID <;> simp [invoke, h]
  · cases h : TrackDrug ctx ws drugID <;> simp [invoke, h]
  · intro hfree
    simp [invoke, TrackDrug, GetState, hread, hfree]
  · intro trace hcalls
    have hfree := runAll_absent drugID trace emptyState rfl hcalls
    simp [TrackDrug, GetState, hread, hfree]
  · intro drug hdrug
    simp [invoke, TrackDrug, GetState, hread, hdrug]

/-- C13 at a concrete input: a caller whose identity cannot be resolved tracks drug `D1`
on the ledger that holds it, and gets the stored record. -/
theorem trackDrug_reads_witness :
    TrackDrug ⟨.error "no identity", none, none, fun _ => "2024-03-05T10:00:00Z"⟩
        (ledgerWith (heldDrug "MedlifeMSP" "Recalled" true)) "D1"
      = .ok (heldDrug "MedlifeMSP" "Recalled" true) ∧
    TrackDrug ⟨.error "no identity", none, none, fun _ => "2024-03-05T10:00:00Z"⟩
        (ledgerWith (heldDrug "MedlifeMSP" "Recalled" true)) "D2"
      = .error "drug D2 does not exist" :=
  have h := trackDrug_reads ⟨.error "no identity", none, none, fun _ => "2024-03-05T10:00:00Z"⟩
    (ledgerWith (heldDrug "MedlifeMSP" "Recalled" true))
  ⟨((h "D1" rfl).2.2.2.2 (heldDrug "MedlifeMSP" "Recalled" true) rfl).1,
    ((h "D2" rfl).2.2.1 rfl).1⟩

/-- C14: with nothing stored at the id, `ShipDrug` and `ReceiveDrug` by any caller, and
`RecallDrug` by a `CDSCOMSP` caller, fail with "drug <id> does not exist"; the world state
is the one before the call, so there is still nothing at the id. -/
theorem calls_on_missing_drug (ctx : Ctx) (ws : WorldState) (drugID receiver reason role : String)
    (hrole : ctx.mspid = .ok role) (hread : ctx.readErr = none) (hfree : ws drugID = none) :
    ((ShipDrug ctx ws drugID receiver).err = some ("drug " ++ drugID ++ " does not exist") ∧
      (ShipDrug ctx ws drugID receiver).state = ws) ∧
    ((ReceiveDrug ctx ws drugID).err = some ("drug " ++ drugID ++ " does not exist") ∧
      (ReceiveDrug ctx ws drugID).state = ws) ∧
    (role = "CDSCOMSP" →
      (RecallDrug ctx ws drugID reason).err = some ("drug " ++ drugID ++ " does not exist") ∧
      (RecallDrug ctx ws drugID reason).state = ws) := by
  refine ⟨?_, ?_, ?_⟩
  · simp [ShipDrug, getClientMSPID, GetState, hrole, hread, hfree]
  · simp [ReceiveDrug, getClientMSPID, GetState, hrole, hread, hfree]
  · intro hreg
    subst hreg
    simp [RecallDrug, getClientMSPID, GetState, hrole, hread, hfree]

/-- C14 at a concrete input: `CDSCOMSP` ships, receives and recalls drug `D1` on the empty
ledger. -/
theorem calls_on_missing_drug_witness :
    emptyState "D1" = none ∧
    (ShipDrug (callerCtx "CDSCOMSP") emptyState "D1" "MedlifeMSP").err
      = some "drug D1 does not exist" ∧
    (ShipDrug (callerCtx "CDSCOMSP") emptyState "D1" "MedlifeMSP").state = emptyState ∧
    (ReceiveDrug (callerCtx "CDSCOMSP") emptyState "D1").err = some "drug D1 does not exist" ∧
    (ReceiveDrug (callerCtx "CDSCOMSP") emptyState "D1").state = emptyState ∧
    (RecallDrug (callerCtx "CDSCOMSP") emptyState "D1" "contamination").err
      = some "drug D1 does not exist" ∧
    (RecallDrug (callerCtx "CDSCOMSP") emptyState "D1" "contamination").state = emptyState :=
  have h := calls_on_missing_drug (callerCtx "CDSCOMSP") emptyState "D1" "MedlifeMSP"
    "contamination" "CDSCOMSP" rfl rfl rfl
  ⟨rfl, h.1.1, h.1.2, h.2.1.1, h.2.1.2, (h.2.2 rfl).1, (h.2.2 rfl).2⟩

/-! ## The end-to-end scenario -/

/-- C15 fails on the code: from the empty ledger `CiplaMSP` registers `D1` and the call
succeeds; `CiplaMSP` then ships `D1` to `Distributor` and is refused, the stored owner
being `Cipla`; `Distributor` then receives `D1` and is refused, the drug not being in
transit to it.  The record at the end is still `InProduction`, owned by `Cipla`, with a
history of one row and the recall flag off. -/
theorem scenario_register_ship_receive :
    (RegisterDrug (callerCtx "CiplaMSP") emptyState "D1" "Paracetamol" "B100" "2024-01-01"
        "2026-01-01" "500mg").err = none ∧
    (ShipDrug (callerCtx "CiplaMSP") registeredLedger "D1" "Distributor").err
      = some "only current owner can ship drug" ∧
    (ReceiveDrug (callerCtx "Distributor")
        (ShipDrug (callerCtx "CiplaMSP") registeredLedger "D1" "Distributor").state "D1").err
      = some "drug is not in transit to this organization" ∧
    (ReceiveDrug (callerCtx "Distributor")
        (ShipDrug (callerCtx "CiplaMSP") registeredLedger "D1" "Distributor").state "D1").state
        "D1"
      = some (registeredRecord "2024-03-05T10:00:00Z" "D1" "Paracetamol" "B100" "2024-01-01"
          "2026-01-01" "500mg") ∧
    (registeredRecord "2024-03-05T10:00:00Z" "D1" "Paracetamol" "B100" "2024-01-01"
        "2026-01-01" "500mg").Status = "InProduction" ∧
    (registeredRecord "2024-03-05T10:00:00Z" "D1" "Paracetamol" "B100" "2024-01-01"
        "2026-01-01" "500mg").CurrentOwner = "Cipla" ∧
    (registeredRecord "2024-03-05T10:00:00Z" "D1" "Paracetamol" "B100" "2024-01-01"
        "2026-01-01" "500mg").History.length = 1 ∧
    (registeredRecord "2024-03-05T10:00:00Z" "D1" "Paracetamol" "B100" "2024-01-01"
        "2026-01-01" "500mg").IsRecalled = false := by
  refine ⟨rfl, rfl, rfl, by decide, rfl, rfl, rfl, rfl⟩

/-! ## Runs from the empty ledger -/

/-- A call either leaves the world state as it was or stores one rewritten record. -/
theorem invoke_rewrites (ctx : Ctx) (ws : WorldState) (call : Call) :
    (invoke ctx ws call).state = ws ∨
    ∃ (key : String) (new : Drug),
      (invoke ctx ws call).state = put ws key new ∧ Rewrite (ws key) new := by
  rcases call with ⟨k, name, batchNumber, mfgDate, expiryDate, composition⟩ | ⟨k, receiver⟩ |
    ⟨k⟩ | ⟨k, reason⟩ | ⟨k⟩
  · rcases registerDrug_cases ctx ws k name batchNumber mfgDate expiryDate composition with
      h | ⟨hd, -, -, hs⟩
    · exact Or.inl h.2
    · exact Or.inr ⟨k, _, hs, hd ▸ Rewrite.registered _ _ _ _ _ _ _⟩
  · rcases shipDrug_cases ctx ws k receiver with h | ⟨drug, hd, -, -, hs⟩
    · exact Or.inl h.2
    · exact Or.inr ⟨k, _, hs, hd ▸ Rewrite.shipped _ _ _⟩
  · rcases receiveDrug_cases ctx ws k with h | ⟨drug, hd, -, ht, -, hs⟩
    · exact Or.inl h.2
    · exact Or.inr ⟨k, _, hs, hd ▸ Rewrite.received _ _ ht⟩
  · rcases recallDrug_cases ctx ws k reason with h | ⟨drug, hd, -, -, hs⟩
    · exact Or.inl h.2
    · exact Or.inr ⟨k, _, hs, hd ▸ Rewrite.recalled _ _ _ _⟩
  · left
    cases h : TrackDrug ctx ws k <;> simp [invoke, h]

/-- A property of records that every rewrite establishes, given that it held of the
record rewritten, holds of every record of every run that starts where it holds. -/
theorem runAll_invariant (P : Drug → Prop)
    (hstep : ∀ (old : Option Drug) (new : Drug), Rewrite old new →
      (∀ drug, old = some drug → P drug) → P new)
    (trace : List (Ctx × Call)) :
    ∀ ws : WorldState, (∀ k drug, ws k = some drug → P drug) →
      ∀ k drug, runAll ws trace k = some drug → P drug := by
  induction trace with
  | nil => intro ws hws k drug h; exact hws k drug h
  | cons step rest ih =>
    intro ws hws
    obtain ⟨ctx, call⟩ := step
    apply ih
    intro k drug hk
    rcases invoke_rewrites ctx ws call with h | ⟨key, new, hs, hrw⟩
    · rw [h] at hk
      exact hws k drug hk
    · rw [hs, put_apply] at hk
      by_cases e : k = key
      · rw [if_pos e] at hk
        cases hk
        exact hstep _ _ hrw (fun d hd => hws key d hd)
      · rw [if_neg e] at hk
        exact hws k drug hk

/-! ## Recall as a terminal branch -/

/-- C16 fails: `CiplaMSP` registers `D1`, `CDSCOMSP` recalls it, and the caller whose MSP
id is the stored owner `Cipla` ships it to `MedlifeMSP`.  All three calls succeed, and the
record stored in the end has the recall flag on and status `InTransit`. -/
theorem recalled_status_counterexample :
    (invoke (callerCtx "CiplaMSP") emptyState
      (.register "D1" "Paracetamol" "B100" "2024-01-01" "2026-01-01" "500mg")).err = none ∧
    (invoke (callerCtx "CDSCOMSP") registeredLedger (.recall "D1" "contamination")).err
      = none ∧
    (invoke (callerCtx "Cipla")
      (invoke (callerCtx "CDSCOMSP") registeredLedger (.recall "D1" "contamination")).state
      (.ship "D1" "MedlifeMSP")).err = none ∧
    (runAll emptyState recallThenShip "D1").map Drug.IsRecalled = some true ∧
    (runAll emptyState recallThenShip "D1").map Drug.Status = some "InTransit" ∧
    (runAll emptyState recallThenShip "D1").map Drug.Status ≠ some "Recalled" := by
  refine ⟨rfl, rfl, rfl, rfl, rfl, by decide⟩

/-- C16 as the code has it: in every ledger reached from the empty one by any calls of any
callers, a record with the recall flag on has status `Recalled`, `InTransit` or
`Delivered`, so never `InProduction` again; and a record with status `Recalled` has the
recall flag on. -/
theorem recalled_status_invariant (trace : List (Ctx × Call)) (drugID : String) (drug : Drug)
    (hdrug : runAll emptyState trace drugID = some drug) :
    (drug.IsRecalled = true →
      drug.Status = "Recalled" ∨ drug.Status = "InTransit" ∨ drug.Status = "Delivered") ∧
    (drug.Status = "Recalled" → drug.IsRecalled = true) := by
  refine runAll_invariant
    (fun d => (d.IsRecalled = true →
        d.Status = "Recalled" ∨ d.Status = "InTransit" ∨ d.Status = "Delivered") ∧
      (d.Status = "Recalled" → d.IsRecalled = true))
    ?_ trace emptyState (fun k d h => by cases h) drugID drug hdrug
  intro old new hrw hold
  cases hrw with
  | registered => simp [registeredRecord]
  | shipped => simp [shippedRecord]
  | received => simp [receivedRecord]
  | recalled => simp [recalledRecord]

/-- The amended C16 at a concrete input: the record left by the run that registers,
recalls and ships `D1`. -/
theorem recalled_status_invariant_witness :
    runAll emptyState recallThenShip "D1" = some recalledInTransit ∧
    (recalledInTransit.IsRecalled = true →
      recalledInTransit.Status = "Recalled" ∨ recalledInTransit.Status = "InTransit" ∨
        recalledInTransit.Status = "Delivered") ∧
    (recalledInTransit.Status = "Recalled" → recalledInTransit.IsRecalled = true) :=
  ⟨by decide, recalled_status_invariant recallThenShip "D1" recalledInTransit (by decide)⟩

/-- Writing under `key` where a record was: seen from `drugID`, either that is the key
written, or the record there is untouched. -/
theorem put_at (ws : WorldState) (key drugID : String) (new old drug : Drug)
    (hold : ws key = some old) (hdrug : ws drugID = some drug) :
    (drugID = key ∧ old = drug ∧ put ws key new drugID = some new) ∨
    (drugID ≠ key ∧ put ws key new drugID = some drug) := by
  by_cases e : drugID = key
  · left
    subst e
    rw [hold] at hdrug
    cases hdrug
    exact ⟨rfl, rfl, by rw [put_apply, if_pos rfl]⟩
  · right
    exact ⟨e, by rw [put_apply, if_neg e, hdrug]⟩

/-- C17: the recall flag sticks.  Whatever single call is made, by whatever caller and
whether it succeeds or fails, a record stored at the id is still stored there after it,
and if its recall flag was on it is still on; if the flag was off it is still off, unless
the call was a `RecallDrug` on that id that succeeded.  And the record a successful
`RegisterDrug` stores has the flag off. -/
theorem isRecalled_sticky (ctx : Ctx) (ws : WorldState) (call : Call) (drugID : String)
    (drug : Drug) (hdrug : ws drugID = some drug) :
    (∃ drug' : Drug, (invoke ctx ws call).state drugID = some drug' ∧
      (drug.IsRecalled = true → drug'.IsRecalled = true) ∧
      (drug.IsRecalled = false → drug'.IsRecalled = false ∨
        ∃ reason, call = .recall drugID reason ∧ (invoke ctx ws call).err = none)) ∧
    (∀ (ws0 : WorldState) (name batchNumber mfgDate expiryDate composition : String),
      (RegisterDrug ctx ws0 drugID name batchNumber mfgDate expiryDate composition).err = none →
      ∃ fresh : Drug,
        (RegisterDrug ctx ws0 drugID name batchNumber mfgDate expiryDate composition).state
          drugID = some fresh ∧ fresh.IsRecalled = false) := by
  constructor
  · rcases call with ⟨k, name, batchNumber, mfgDate, expiryDate, composition⟩ |
      ⟨k, receiver⟩ | ⟨k⟩ | ⟨k, reason⟩ | ⟨k⟩
    · rcases registerDrug_cases ctx ws k name batchNumber mfgDate expiryDate composition with
        h | ⟨hd, -, -, hs⟩
      · exact ⟨drug, by simp [invoke, h.2, hdrug], id, fun h => Or.inl h⟩
      · have hk : ¬ drugID = k := by
          intro e
          rw [e, hd] at hdrug
          cases hdrug
        exact ⟨drug, by simp [invoke, hs, put_apply, hk, hdrug], id, fun h => Or.inl h⟩
    · rcases shipDrug_cases ctx ws k receiver with h | ⟨d, hd, -, -, hs⟩
      · exact ⟨drug, by simp [invoke, h.2, hdrug], id, fun h => Or.inl h⟩
      · rcases put_at ws k drugID (shippedRecord (getTimestamp ctx 0) receiver d) d drug hd
          hdrug with ⟨-, e, hp⟩ | ⟨-, hp⟩
        · subst e
          exact ⟨shippedRecord (getTimestamp ctx 0) receiver d,
            by simp only [invoke, hs, hp], id, fun h => Or.inl h⟩
        · exact ⟨drug, by simp only [invoke, hs, hp], id, fun h => Or.inl h⟩
    · rcases receiveDrug_cases ctx ws k with h | ⟨d, hd, -, -, -, hs⟩
      · exact ⟨drug, by simp [invoke, h.2, hdrug], id, fun h => Or.inl h⟩
      · rcases put_at ws k drugID (receivedRecord (getTimestamp ctx 0) d.CurrentOwner d) d drug
          hd hdrug with ⟨-, e, hp⟩ | ⟨-, hp⟩
        · subst e
          exact ⟨receivedRecord (getTimestamp ctx 0) d.CurrentOwner d,
            by simp only [invoke, hs, hp], id, fun h => Or.inl h⟩
        · exact ⟨drug, by simp only [invoke, hs, hp], id, fun h => Or.inl h⟩
    · rcases recallDrug_cases ctx ws k reason with h | ⟨d, hd, -, hok, hs⟩
      · exact ⟨drug, by simp [invoke, h.2, hdrug], id, fun h => Or.inl h⟩
      · rcases put_at ws k drugID
          (recalledRecord (getTimestamp ctx 0) (getTimestamp ctx 1) "CDSCOMSP" reason d) d drug
          hd hdrug with ⟨ek, e, hp⟩ | ⟨-, hp⟩
        · subst e
          subst ek
          exact ⟨recalledRecord (getTimestamp ctx 0) (getTimestamp ctx 1) "CDSCOMSP" reason d,
            by simp only [invoke, hs, hp], fun _ => rfl,
            fun _ => Or.inr ⟨reason, rfl, hok⟩⟩
        · exact ⟨drug, by simp only [invoke, hs, hp], id, fun h => Or.inl h⟩
    · refine ⟨drug, ?_, id, fun h => Or.inl h⟩
      cases h : TrackDrug ctx ws k <;> simp [invoke, h, hdrug]
  · intro ws0 name batchNumber mfgDate expiryDate composition hok
    rcases registerDrug_cases ctx ws0 drugID name batchNumber mfgDate expiryDate composition
      with h | ⟨-, -, -, hs⟩
    · exact absurd hok h.1
    · exact ⟨_, by rw [hs, put_apply, if_pos rfl], rfl⟩

/-- C17 at a concrete input: `MedlifeMSP` ships on the recalled drug `D1`, which it holds. -/
theorem isRecalled_sticky_witness :
    (heldDrug "MedlifeMSP" "Recalled" true).IsRecalled = true ∧
    ∃ drug' : Drug,
      (invoke (callerCtx "MedlifeMSP") (ledgerWith (heldDrug "MedlifeMSP" "Recalled" true))
        (.ship "D1" "ApolloMSP")).state "D1" = some drug' ∧ drug'.IsRecalled = true :=
  have h := (isRecalled_sticky (callerCtx "MedlifeMSP")
    (ledgerWith (heldDrug "MedlifeMSP" "Recalled" true)) (.ship "D1" "ApolloMSP") "D1"
    (heldDrug "MedlifeMSP" "Recalled" true) rfl).1
  ⟨rfl, h.elim fun drug' hd => ⟨drug', hd.1, hd.2.1 rfl⟩⟩

/-! ## The history only grows, the description never changes -/

/-- A failed transaction appends nothing. -/
theorem appendsToHistory_of_failed (ws : WorldState) (drugID : String) (drug : Drug)
    (r : TxResult) (hdrug : ws drugID = some drug) (herr : r.err ≠ none) (hstate : r.state = ws) :
    appendsToHistory ws drugID drug r :=
  ⟨drug, by rw [hstate, hdrug], List.prefix_refl _, fun h => absurd h herr, fun _ => hstate⟩

/-- A transaction that succeeds and stores, at the id, the old record with one more
history row appends exactly that row. -/
theorem appendsToHistory_of_put (ws : WorldState) (drugID entry : String) (drug new : Drug)
    (r : TxResult) (herr : r.err = none) (hstate : r.state = put ws drugID new)
    (hnew : new.History = drug.History ++ [entry]) :
    appendsToHistory ws drugID drug r :=
  ⟨new, by rw [hstate, put_apply, if_pos rfl], by rw [hnew]; exact List.prefix_append _ _,
    fun _ => ⟨entry, hnew⟩, fun h => absurd herr h⟩

/-- C18: the history is append-only.  For a record stored at the id, after `ShipDrug`,
`ReceiveDrug` or `RecallDrug` on that id the record is still there and its old history is
a prefix of the new one; when the call succeeds the new history is the old one plus
exactly one row, and when it fails the world state is the one before the call.  And in
every ledger reached from the empty one, every record's history starts with its
`Registered` row, so is not empty. -/
theorem history_append_only (ctx : Ctx) (ws : WorldState) (drugID receiver reason : String)
    (drug : Drug) (hdrug : ws drugID = some drug) :
    appendsToHistory ws drugID drug (ShipDrug ctx ws drugID receiver) ∧
    appendsToHistory ws drugID drug (ReceiveDrug ctx ws drugID) ∧
    appendsToHistory ws drugID drug (RecallDrug ctx ws drugID reason) ∧
    (∀ (trace : List (Ctx × Call)) (k : String) (stored : Drug),
      runAll emptyState trace k = some stored →
      ∃ (timestamp : String) (later : List String), stored.History =
        historyEntry timestamp "Registered" "SYSTEM" "Cipla" "Drug registered in system"
          :: later) := by
  refine ⟨?_, ?_, ?_, ?_⟩
  · rcases shipDrug_cases ctx ws drugID receiver with h | ⟨d, hd, -, hok, hs⟩
    · exact appendsToHistory_of_failed ws drugID drug _ hdrug h.1 h.2
    · rw [hdrug] at hd
      cases hd
      exact appendsToHistory_of_put ws drugID _ drug _ _ hok hs rfl
  · rcases receiveDrug_cases ctx ws drugID with h | ⟨d, hd, -, -, hok, hs⟩
    · exact appendsToHistory_of_failed ws drugID drug _ hdrug h.1 h.2
    · rw [hdrug] at hd
      cases hd
      exact appendsToHistory_of_put ws drugID _ drug _ _ hok hs rfl
  · rcases recallDrug_cases ctx ws drugID reason with h | ⟨d, hd, -, hok, hs⟩
    · exact appendsToHistory_of_failed ws drugID drug _ hdrug h.1 h.2
    · rw [hdrug] at hd
      cases hd
      exact appendsToHistory_of_put ws drugID _ drug _ _ hok hs rfl
  · intro trace k stored hstored
    refine runAll_invariant
      (fun d => ∃ (timestamp : String) (later : List String), d.History =
        historyEntry timestamp "Registered" "SYSTEM" "Cipla" "Drug registered in system"
          :: later)
      ?_ trace emptyState (fun k d h => by cases h) k stored hstored
    intro old new hrw hold
    cases hrw with
    | registered timestamp => exact ⟨timestamp, [], rfl⟩
    | shipped timestamp receiver d =>
      obtain ⟨t, later, h⟩ := hold d rfl
      exact ⟨t, later ++ [historyEntry timestamp "Shipped" receiver receiver
        "Drug shipment initiated"],
        by simp [shippedRecord, h]⟩
    | received timestamp d =>
      obtain ⟨t, later, h⟩ := hold d rfl
      exact ⟨t, later ++ [historyEntry timestamp "Received" d.CurrentOwner d.CurrentOwner
        "Drug received"],
        by simp [receivedRecord, h]⟩
    | recalled noteTime rowTime reason d =>
      obtain ⟨t, later, h⟩ := hold d rfl
      exact ⟨t, later ++ [historyEntry rowTime "Recalled" "CDSCOMSP" "ALL" reason],
        by simp [recalledRecord, h]⟩

/-- C18 at a concrete input: `MedlifeMSP` ships on drug `D1`, which it holds. -/
theorem history_append_only_witness :
    ledgerWith (heldDrug "MedlifeMSP" "Delivered" false) "D1"
      = some (heldDrug "MedlifeMSP" "Delivered" false) ∧
    appendsToHistory (ledgerWith (heldDrug "MedlifeMSP" "Delivered" false)) "D1"
      (heldDrug "MedlifeMSP" "Delivered" false)
      (ShipDrug (callerCtx "MedlifeMSP") (ledgerWith (heldDrug "MedlifeMSP" "Delivered" false))
        "D1" "ApolloMSP") :=
  ⟨rfl,
    (history_append_only (callerCtx "MedlifeMSP")
      (ledgerWith (heldDrug "MedlifeMSP" "Delivered" false)) "D1" "ApolloMSP" "contamination"
      (heldDrug "MedlifeMSP" "Delivered" false) rfl).1⟩

/-- A record has its own description. -/
theorem sameDescription_refl (drug : Drug) : sameDescription drug drug :=
  ⟨rfl, rfl, rfl, rfl, rfl, rfl, rfl⟩

/-- C19: for a record stored at the id, after `ShipDrug`, `ReceiveDrug` or `RecallDrug` on
that id, failed or not, the record there has the same id, name, manufacturer, batch
number, manufacture date, expiry date and composition as before; after `ReceiveDrug` and
`RecallDrug` it has the same current owner as well. -/
theorem description_unchanged (ctx : Ctx) (ws : WorldState) (drugID receiver reason : String)
    (drug : Drug) (hdrug : ws drugID = some drug) :
    (∃ drug' : Drug, (ShipDrug ctx ws drugID receiver).state drugID = some drug' ∧
      sameDescription drug drug') ∧
    (∃ drug' : Drug, (ReceiveDrug ctx ws drugID).state drugID = some drug' ∧
      sameDescription drug drug' ∧ drug'.CurrentOwner = drug.CurrentOwner) ∧
    (∃ drug' : Drug, (RecallDrug ctx ws drugID reason).state drugID = some drug' ∧
      sameDescription drug drug' ∧ drug'.CurrentOwner = drug.CurrentOwner) := by
  refine ⟨?_, ?_, ?_⟩
  · rcases shipDrug_cases ctx ws drugID receiver with h | ⟨d, hd, -, -, hs⟩
    · exact ⟨drug, by rw [h.2, hdrug], sameDescription_refl drug⟩
    · rw [hdrug] at hd
      cases hd
      exact ⟨shippedRecord (getTimestamp ctx 0) receiver drug,
        by rw [hs, put_apply, if_pos rfl], sameDescription_refl drug⟩
  · rcases receiveDrug_cases ctx ws drugID with h | ⟨d, hd, -, -, -, hs⟩
    · exact ⟨drug, by rw [h.2, hdrug], sameDescription_refl drug, rfl⟩
    · rw [hdrug] at hd
      cases hd
      exact ⟨receivedRecord (getTimestamp ctx 0) drug.CurrentOwner drug,
        by rw [hs, put_apply, if_pos rfl], sameDescription_refl drug, rfl⟩
  · rcases recallDrug_cases ctx ws drugID reason with h | ⟨d, hd, -, -, hs⟩
    · exact ⟨drug, by rw [h.2, hdrug], sameDescription_refl drug, rfl⟩
    · rw [hdrug] at hd
      cases hd
      exact ⟨recalledRecord (getTimestamp ctx 0) (getTimestamp ctx 1) "CDSCOMSP" reason drug,
        by rw [hs, put_apply, if_pos rfl], sameDescription_refl drug, rfl⟩

/-- C19 at a concrete input: `CDSCOMSP` recalls drug `D1`, held by `MedlifeMSP`. -/
theorem description_unchanged_witness :
    ledgerWith (heldDrug "MedlifeMSP" "Delivered" false) "D1"
      = some (heldDrug "MedlifeMSP" "Delivered" false) ∧
    ∃ drug' : Drug,
      (RecallDrug (callerCtx "CDSCOMSP") (ledgerWith (heldDrug "MedlifeMSP" "Delivered" false))
        "D1" "contamination").state "D1" = some drug' ∧
      sameDescription (heldDrug "MedlifeMSP" "Delivered" false) drug' ∧
      drug'.CurrentOwner = (heldDrug "MedlifeMSP" "Delivered" false).CurrentOwner :=
  ⟨rfl,
    (description_unchanged (callerCtx "CDSCOMSP")
      (ledgerWith (heldDrug "MedlifeMSP" "Delivered" false)) "D1" "ApolloMSP" "contamination"
      (heldDrug "MedlifeMSP" "Delivered" false) rfl).2.2⟩

/-! ## The layout of history rows -/

/-- A row laid out from five texts without `|` splits back into those five. -/
theorem splitFields_historyEntry (a b c d e : String) (ha : noBar a) (hb : noBar b)
    (hc : noBar c) (hd : noBar d) (he : noBar e) :
    splitFields (historyEntry a b c d e) = [a, b, c, d, e] := by
  have h : (historyEntry a b c d e).data
      = ['|'].intercalate [a.data, b.data, c.data, d.data, e.data] := by
    simp [historyEntry, List.intercalate]
  unfold splitFields
  rw [h, List.splitOn_intercalate]
  · rfl
  · intro l hl
    simp only [List.mem_cons, List.mem_singleton, List.not_mem_nil, or_false] at hl
    rcases hl with rfl | rfl | rfl | rfl | rfl <;> assumption
  · simp

/-- C20 fails: `CDSCOMSP` recalls drug `D1` with the reason "wrong label|batch B100", and
the appended row splits into six fields; `MedlifeMSP` ships `D1` to "Apollo|MSP", and the
appended row splits into seven. -/
theorem history_fields_counterexample :
    (RecallDrug (callerCtx "CDSCOMSP") (ledgerWith (heldDrug "MedlifeMSP" "Delivered" false))
        "D1" "wrong label|batch B100").err = none ∧
    ((RecallDrug (callerCtx "CDSCOMSP") (ledgerWith (heldDrug "MedlifeMSP" "Delivered" false))
        "D1" "wrong label|batch B100").state "D1").map Drug.History =
      some ((heldDrug "MedlifeMSP" "Delivered" false).History ++
        ["2024-03-05T10:00:00Z|Recalled|CDSCOMSP|ALL|wrong label|batch B100"]) ∧
    splitFields "2024-03-05T10:00:00Z|Recalled|CDSCOMSP|ALL|wrong label|batch B100" =
      ["2024-03-05T10:00:00Z", "Recalled", "CDSCOMSP", "ALL", "wrong label", "batch B100"] ∧
    (ShipDrug (callerCtx "MedlifeMSP") (ledgerWith (heldDrug "MedlifeMSP" "Delivered" false))
        "D1" "Apollo|MSP").err = none ∧
    ((ShipDrug (callerCtx "MedlifeMSP") (ledgerWith (heldDrug "MedlifeMSP" "Delivered" false))
        "D1" "Apollo|MSP").state "D1").map Drug.History =
      some ((heldDrug "MedlifeMSP" "Delivered" false).History ++
        ["2024-03-05T10:00:00Z|Shipped|Apollo|MSP|Apollo|MSP|Drug shipment initiated"]) ∧
    splitFields "2024-03-05T10:00:00Z|Shipped|Apollo|MSP|Apollo|MSP|Drug shipment initiated" =
      ["2024-03-05T10:00:00Z", "Shipped", "Apollo", "MSP", "Apollo", "MSP",
        "Drug shipment initiated"] := by
  refine ⟨rfl, by decide, by decide, rfl, by decide, by decide⟩

/-- C20 as the code has it: when the clock's readings, the caller's MSP id, the
destination and the reason have no `|` in them, the row a successful `RegisterDrug`,
`ShipDrug`, `ReceiveDrug` or `RecallDrug` appends splits at `|` into exactly five fields:
the timestamp, the event name, a sender, the receiver and the details, in that order. -/
theorem history_fields (ctx : Ctx) (ws ws0 : WorldState)
    (drugID name batchNumber mfgDate expiryDate composition receiver reason role : String)
    (drug : Drug) (hrole : ctx.mspid = .ok role) (hdrug : ws drugID = some drug)
    (hclock : ∀ n, noBar (getTimestamp ctx n)) (hcaller : noBar role)
    (hreceiver : noBar receiver) (hreason : noBar reason) :
    ((RegisterDrug ctx ws0 drugID name batchNumber mfgDate expiryDate composition).err = none →
      ∃ (drug' : Drug) (entry : String),
        (RegisterDrug ctx ws0 drugID name batchNumber mfgDate expiryDate composition).state
          drugID = some drug' ∧
        drug'.History = [entry] ∧
        splitFields entry = [getTimestamp ctx 0, "Registered", "SYSTEM", "Cipla",
          "Drug registered in system"]) ∧
    ((ShipDrug ctx ws drugID receiver).err = none →
      ∃ (drug' : Drug) (entry sender : String),
        (ShipDrug ctx ws drugID receiver).state drugID = some drug' ∧
        drug'.History = drug.History ++ [entry] ∧
        splitFields entry = [getTimestamp ctx 0, "Shipped", sender, receiver,
          "Drug shipment initiated"]) ∧
    ((ReceiveDrug ctx ws drugID).err = none →
      ∃ (drug' : Drug) (entry : String),
        (ReceiveDrug ctx ws drugID).state drugID = some drug' ∧
        drug'.History = drug.History ++ [entry] ∧
        splitFields entry = [getTimestamp ctx 0, "Received", drug.CurrentOwner, role,
          "Drug received"]) ∧
    ((RecallDrug ctx ws drugID reason).err = none →
      ∃ (drug' : Drug) (entry : String),
        (RecallDrug ctx ws drugID reason).state drugID = some drug' ∧
        drug'.History = drug.History ++ [entry] ∧
        splitFields entry = [getTimestamp ctx 1, "Recalled", role, "ALL", reason]) := by
  refine ⟨?_, ?_, ?_, ?_⟩
  · intro hok
    rcases registerDrug_cases ctx ws0 drugID name batchNumber mfgDate expiryDate composition
      with h | ⟨-, -, -, hs⟩
    · exact absurd hok h.1
    · exact ⟨registeredRecord (getTimestamp ctx 0) drugID name batchNumber mfgDate expiryDate
          composition, _, by rw [hs, put_apply, if_pos rfl], rfl,
        splitFields_historyEntry _ _ _ _ _ (hclock 0) (by decide) (by decide) (by decide)
          (by decide)⟩
  · intro hok
    rcases shipDrug_cases ctx ws drugID receiver with h | ⟨d, hd, -, -, hs⟩
    · exact absurd hok h.1
    · rw [hdrug] at hd
      cases hd
      exact ⟨shippedRecord (getTimestamp ctx 0) receiver drug, _, receiver,
        by rw [hs, put_apply, if_pos rfl], rfl,
        splitFields_historyEntry _ _ _ _ _ (hclock 0) (by decide) hreceiver hreceiver
          (by decide)⟩
  · intro hok
    rcases receiveDrug_cases ctx ws drugID with h | ⟨d, hd, hm, -, -, hs⟩
    · exact absurd hok h.1
    · rw [hdrug] at hd
      cases hd
      rw [hrole] at hm
      cases hm
      exact ⟨receivedRecord (getTimestamp ctx 0) drug.CurrentOwner drug, _,
        by rw [hs, put_apply, if_pos rfl], rfl,
        splitFields_historyEntry _ _ _ _ _ (hclock 0) (by decide) hcaller hcaller
          (by decide)⟩
  · intro hok
    rcases recallDrug_cases ctx ws drugID reason with h | ⟨d, hd, hm, -, hs⟩
    · exact absurd hok h.1
    · rw [hdrug] at hd
      cases hd
      rw [hrole] at hm
      cases hm
      exact ⟨recalledRecord (getTimestamp ctx 0) (getTimestamp ctx 1) "CDSCOMSP" reason drug, _,
        by rw [hs, put_apply, if_pos rfl], rfl,
        splitFields_historyEntry _ _ _ _ _ (hclock 1) (by decide) (by decide) (by decide)
          hreason⟩

/-- The amended C20 at a concrete input: `MedlifeMSP` ships drug `D1`, which it holds, to
`ApolloMSP`. -/
theorem history_fields_witness :
    noBar "MedlifeMSP" ∧ noBar "ApolloMSP" ∧ noBar "contamination" ∧
    noBar "2024-03-05T10:00:00Z" ∧
    ∃ (drug' : Drug) (entry sender : String),
      (ShipDrug (callerCtx "MedlifeMSP") (ledgerWith (heldDrug "MedlifeMSP" "Delivered" false))
        "D1" "ApolloMSP").state "D1" = some drug' ∧
      drug'.History = (heldDrug "MedlifeMSP" "Delivered" false).History ++ [entry] ∧
      splitFields entry = [getTimestamp (callerCtx "MedlifeMSP") 0, "Shipped", sender,
        "ApolloMSP", "Drug shipment initiated"] :=
  ⟨by decide, by decide, by decide, by decide,
    (history_fields (callerCtx "MedlifeMSP")
      (ledgerWith (heldDrug "MedlifeMSP" "Delivered" false)) emptyState "D1" "Paracetamol"
      "B100" "2024-01-01" "2026-01-01" "500mg" "ApolloMSP" "contamination" "MedlifeMSP"
      (heldDrug "MedlifeMSP" "Delivered" false) rfl rfl
      (fun _ => (by decide : noBar "2024-03-05T10:00:00Z")) (by decide)
      (by decide) (by decide)).2.1 rfl⟩

end DrugChaincode
